import Mathlib

/-!
A shallow embedding, in Lean 4, of the message-mux terminal repository:
the hub packet codec (terminal/core/utils.py), the hub server routing,
authentication and logout paths (terminal/core/server.py), the client
handler loop (terminal/core/client.py), the file recorder startup
(terminal/core/recorder.py), the upstream exchange helper
(extensions/binance_helper.py together with
terminal/extensions/trade/exchange_helper.py) and the trade clients
(terminal/extensions/trade/trade_client.py).

Python values crossing the JSON boundary are modelled by the `JVal` tree;
`json.loads` applied to a wire string is modelled by an `Option JVal`
(`none` is a string the json module rejects), and `json.dumps` of a dict
built by the code is modelled by the `JVal` itself, relying on the json
module rendering and re-reading its own output faithfully.  Machine time
(`get_timestamp`, `time.time`) is an explicit `now` argument.  Python
exceptions are `Except PyErr` results.
-/

namespace Terminal

/-- JSON values as handled by the repository. Python ints and floats both
appear as `num` rationals; Python bools that are not field values under
test never reach a numeric check, so the int-subclass behaviour of `bool`
is not modelled. -/
inductive JVal where
  | num (q : ℚ)
  | str (s : String)
  | arr (l : List JVal)
  | obj (l : List (String × JVal))
  | jbool (b : Bool)
  | null

/-- Python exception kinds raised by the embedded code paths. `modelRestriction`
marks inputs on which the Python object would carry a field of an unexpected
runtime type that the typed embedding cannot represent; no claim input
reaches it. -/
inductive PyErr where
  | assertionError (msg : String)
  | keyError
  | attributeError (msg : String)
  | jsonDecodeError
  | invalidStateError
  | indexError
  | valueError
  | modelRestriction (msg : String)
  deriving DecidableEq, Repr

/-- Packet of utils.py lines 13-34: the six stored fields. Times are the
numeric (int or float) millisecond stamps. -/
structure Packet where
  sent_time : ℚ
  route_time : ℚ
  action : String
  source : String
  destination : List String
  content : String
  deriving DecidableEq, Repr

deriving instance DecidableEq for Except

/-- Boolean success test for an `Except` result. -/
def exceptOk {α : Type} (e : Except PyErr α) : Bool :=
  match e with
  | .ok _ => true
  | .error _ => false

/-- Python str.replace applied to remove every underscore, as in
`packet["sc"].replace("_", "")` (utils.py line 68). -/
def stripUnderscore (s : String) : String :=
  String.mk (s.toList.filter (fun c => c != '_'))

/-- Python str.isalnum restricted to the ASCII identifiers the spec grammar
allows: nonempty and every character alphanumeric. (Python accepts further
Unicode alphanumerics; no claim involves them.) -/
def pyIsAlnum (s : String) : Bool :=
  !s.isEmpty && s.toList.all (fun c => c.isAlphanum)

/-- Identifier grammar of the spec, section 3: nonempty and every character
in `[A-Za-z0-9_]`. This definition follows the SPEC wording and exists to
compare the spec grammar with the check the code performs. -/
def specSourceGrammar (s : String) : Bool :=
  !s.isEmpty && s.toList.all (fun c => c.isAlphanum || c == '_')

/-- Packet.check_message (utils.py lines 36-44): `json.loads` failure is
caught and re-raised as `AssertionError("packet decode error")`; then the
value must be a dict with exactly `field_num` keys. -/
def Packet.check_message (m : Option JVal) (field_num : Nat) :
    Except PyErr (List (String × JVal)) :=
  match m with
  | none => .error (.assertionError "packet decode error")
  | some (JVal.obj l) =>
    if l.length = field_num then .ok l
    else .error (.assertionError "field num error")
  | some _ => .error (.assertionError "packet type error")

/-- Packet.check_sent_time (utils.py lines 46-50): `st` present, numeric,
and strictly below `get_timestamp() + 1`. -/
def Packet.check_sent_time (now : ℚ) (l : List (String × JVal)) :
    Except PyErr Unit :=
  match l.lookup "st" with
  | none => .error (.assertionError "sent_time missing error")
  | some (JVal.num q) =>
    if q < now + 1 then .ok ()
    else .error (.assertionError "server time error")
  | some _ => .error (.assertionError "sent_time type error")

/-- Packet.check_route_time (utils.py lines 52-56). The source body repeats
the sent_time checks on the key `st`; the key `rt` is never inspected, and
the embedding reproduces that. -/
def Packet.check_route_time (now : ℚ) (l : List (String × JVal)) :
    Except PyErr Unit :=
  match l.lookup "st" with
  | none => .error (.assertionError "sent_time missing error")
  | some (JVal.num q) =>
    if q < now + 1 then .ok ()
    else .error (.assertionError "server time error")
  | some _ => .error (.assertionError "sent_time type error")

/-- Packet.check_action (utils.py lines 58-62); the type-error message is
a slip of the source, repeating "source type error". -/
def Packet.check_action (l : List (String × JVal)) : Except PyErr Unit :=
  match l.lookup "ac" with
  | none => .error (.assertionError "action missing")
  | some (JVal.str a) =>
    if ["login", "message", "logout"].contains a then .ok ()
    else .error (.assertionError "action type error")
  | some _ => .error (.assertionError "source type error")

/-- Packet.check_source (utils.py lines 64-69): underscores are stripped
first, then the remainder must be alphanumeric or the literal `#`. -/
def Packet.check_source (l : List (String × JVal)) : Except PyErr Unit :=
  match l.lookup "sc" with
  | none => .error (.assertionError "source missing")
  | some (JVal.str s) =>
    if pyIsAlnum (stripUnderscore s) || stripUnderscore s == "#" then .ok ()
    else .error (.assertionError "source format error")
  | some _ => .error (.assertionError "source type error")

/-- Packet.check_destination (utils.py lines 71-75): `dt` must be a list
whose items are all strings. -/
def Packet.check_destination (l : List (String × JVal)) : Except PyErr Unit :=
  match l.lookup "dt" with
  | none => .error (.assertionError "destination missing error")
  | some (JVal.arr items) =>
    if items.all (fun v => match v with | JVal.str _ => true | _ => false)
    then .ok ()
    else .error (.assertionError "destination type error")
  | some _ => .error (.assertionError "destination type error")

/-- Packet.check_content (utils.py lines 77-80). -/
def Packet.check_content (l : List (String × JVal)) : Except PyErr Unit :=
  match l.lookup "ct" with
  | none => .error (.assertionError "content missing error")
  | some (JVal.str _) => .ok ()
  | some _ => .error (.assertionError "content type error")

/-- Reads a JSON array of strings into a string list; `none` when an item is
not a string. Used where Python stores a raw list it has already checked
(or, in from_str, never checks: see `Packet.from_str`). -/
def JVal.asStringList : JVal → Option (List String)
  | .arr items =>
    items.mapM (fun v => match v with | JVal.str s => some s | _ => none)
  | _ => none

/-- Key-value list of the six-field record object (utils.py lines 150-157). -/
def recordFields (st rt : ℚ) (ac sc : String) (dl : List String) (ct : String) :
    List (String × JVal) :=
  [("st", .num st), ("rt", .num rt), ("ac", .str ac), ("sc", .str sc),
   ("dt", .arr (dl.map JVal.str)), ("ct", .str ct)]

/-- Packet.to_str (utils.py lines 146-158): the six-field record object
handed to json.dumps. -/
def Packet.to_str (p : Packet) : JVal :=
  JVal.obj (recordFields p.sent_time p.route_time p.action p.source
    p.destination p.content)

/-- Key-value list of the four-field server-message object (utils.py lines
117-122). -/
def serverFields (st rt : ℚ) (sc ct : String) : List (String × JVal) :=
  [("st", .num st), ("rt", .num rt), ("sc", .str sc), ("ct", .str ct)]

/-- Packet.to_route (utils.py lines 116-123): the four-field server-message
view, destination stripped. -/
def Packet.to_route (p : Packet) : JVal :=
  JVal.obj (serverFields p.sent_time p.route_time p.source p.content)

/-- Packet.to_client (utils.py lines 125-135): server-message view with the
hub source `#` and a replacement content. -/
def Packet.to_client (p : Packet) (content : String) : JVal :=
  JVal.obj [("st", .num p.sent_time), ("rt", .num p.route_time),
            ("sc", .str "#"), ("ct", .str content)]

/-- Packet.from_str (utils.py lines 160-178): six fields, the five checks
(route_time and destination are never checked by the source), then field
extraction. Missing `rt` or `dt` keys raise KeyError exactly as the Python
subscripts would; a non-numeric `rt` or non-string-list `dt` would be
stored raw by Python and is reported as `modelRestriction` here. -/
def Packet.from_str (now : ℚ) (m : Option JVal) : Except PyErr Packet :=
  match Packet.check_message m 6 with
  | .error e => .error e
  | .ok l =>
  match Packet.check_sent_time now l with
  | .error e => .error e
  | .ok _ =>
  match Packet.check_route_time now l with
  | .error e => .error e
  | .ok _ =>
  match Packet.check_action l with
  | .error e => .error e
  | .ok _ =>
  match Packet.check_source l with
  | .error e => .error e
  | .ok _ =>
  match Packet.check_content l with
  | .error e => .error e
  | .ok _ =>
  match l.lookup "st", l.lookup "rt", l.lookup "ac", l.lookup "sc",
        l.lookup "dt", l.lookup "ct" with
  | some (JVal.num st), some rt, some (JVal.str ac), some (JVal.str sc),
    some dt, some (JVal.str ct) =>
    match rt with
    | JVal.num rtq =>
      match dt.asStringList with
      | some dl => .ok ⟨st, rtq, ac, sc, dl, ct⟩
      | none => .error (.modelRestriction "destination not a string list")
    | _ => .error (.modelRestriction "route_time not numeric")
  | _, _, _, _, _, _ => .error .keyError

/-- Packet.from_server_message (utils.py lines 137-144): four fields,
checks, then a Packet with action `message` and empty destination. The `rt`
subscript can raise KeyError (check_route_time re-checks `st`). -/
def Packet.from_server_message (now : ℚ) (m : Option JVal) :
    Except PyErr Packet :=
  match Packet.check_message m 4 with
  | .error e => .error e
  | .ok l =>
  match Packet.check_sent_time now l with
  | .error e => .error e
  | .ok _ =>
  match Packet.check_route_time now l with
  | .error e => .error e
  | .ok _ =>
  match Packet.check_source l with
  | .error e => .error e
  | .ok _ =>
  match Packet.check_content l with
  | .error e => .error e
  | .ok _ =>
  match l.lookup "st", l.lookup "rt", l.lookup "sc", l.lookup "ct" with
  | some (JVal.num st), some rt, some (JVal.str sc), some (JVal.str ct) =>
    match rt with
    | JVal.num rtq => .ok ⟨st, rtq, "message", sc, [], ct⟩
    | _ => .error (.modelRestriction "route_time not numeric")
  | _, _, _, _ => .error .keyError

/-- Packet.from_client_login (utils.py lines 91-97): the wire text is first
parsed by json.loads (the `loads` argument), then the three-field login
view is checked; the result packet carries `route_time := now` and action
`login`. The message is a character list so that the byte-bounded slice the
server takes (server.py line 45) is expressible. -/
def Packet.from_client_login (loads : List Char → Option JVal) (now : ℚ)
    (message : List Char) : Except PyErr Packet :=
  match Packet.check_message (loads message) 3 with
  | .error e => .error e
  | .ok l =>
  match Packet.check_sent_time now l with
  | .error e => .error e
  | .ok _ =>
  match Packet.check_source l with
  | .error e => .error e
  | .ok _ =>
  match Packet.check_content l with
  | .error e => .error e
  | .ok _ =>
  match l.lookup "st", l.lookup "sc", l.lookup "ct" with
  | some (JVal.num st), some (JVal.str sc), some (JVal.str ct) =>
    .ok ⟨st, now, "login", sc, [], ct⟩
  | _, _, _ => .error .keyError

/-- Runtime objects stored in the server dictionaries: websockets (told apart
by an id) and packets. `Server.route` compares a value read from
`client_dict` against a set collected from `conn_dict`, so both live in one
type, exactly as Python compares them under one dynamic type. -/
inductive PyObj where
  | ws (id : Nat)
  | pkt (p : Packet)
  deriving DecidableEq, Repr

/-- Server state (server.py lines 27-29): `client_dict` maps a uid to the
authentication packet, `conn_dict` maps a uid to the websocket, and
`records` is the sequence of packets handed to the recorder. -/
structure ServerState where
  client_dict : List (String × PyObj)
  conn_dict : List (String × PyObj)
  records : List Packet
  deriving DecidableEq, Repr

/-- Python set.add on the collected connection set: no duplicate entry. -/
def setAdd (s : List PyObj) (x : PyObj) : List PyObj :=
  if x ∈ s then s else s ++ [x]

/-- Server.route (server.py lines 59-73). The result is the connection set
handed to `broadcast` (broadcast runs only when the set is nonempty; the
set itself carries the claim-relevant membership). The source line 69 reads
`self.client_dict[packet.source]` - the stored authentication packet, not
the websocket - and line 70 tests that object against the websocket set;
a missing source key raises KeyError. -/
def Server.route (s : ServerState) (p : Packet) : Except PyErr (List PyObj) :=
  let connection_set := p.destination.foldl (fun acc dest =>
    match s.conn_dict.lookup dest with
    | some c => setAdd acc c
    | none => acc) []
  match s.client_dict.lookup p.source with
  | none => .error .keyError
  | some source_connection =>
    .ok (if source_connection ∈ connection_set
         then connection_set.erase source_connection
         else connection_set)

/-- Server.authenticate (server.py lines 38-57): only the first 1024
characters of the received frame reach `Packet.from_client_login`; the
source must be absent from the live set; then `auth_func` decides. Every
failure raises (the handler, lines 90-97, catches any exception and drops
the connection). The websocket replies themselves are transport effects
outside this embedding. -/
def Server.authenticate (loads : List Char → Option JVal) (now : ℚ)
    (s : ServerState) (auth_func : Packet → Bool × String)
    (message : List Char) : Except PyErr Packet :=
  match Packet.from_client_login loads now (message.take 1024) with
  | .error e => .error e
  | .ok p =>
    if (s.client_dict.lookup p.source).isSome then
      .error (.assertionError "source already exist")
    else
      match auth_func p with
      | (true, _) => .ok p
      | (false, m2) => .error (.assertionError m2)

/-- The successful branch of Server.authenticate (server.py lines 49-53):
store the auth packet under the uid, store the websocket, record the login
packet. -/
def Server.acceptLogin (s : ServerState) (wsId : Nat) (p : Packet) :
    ServerState :=
  { s with client_dict := s.client_dict ++ [(p.source, .pkt p)],
           conn_dict := s.conn_dict ++ [(p.source, .ws wsId)],
           records := s.records ++ [p] }

/-- Removes the first binding of a key from an association list, as the
Python `del` of a present key does. -/
def delKey {α : Type} (d : List (String × α)) (k : String) :
    List (String × α) :=
  d.eraseP (fun kv => kv.1 == k)

/-- Server.logout (server.py lines 81-88): both `del` statements run, then
the call `Packet.to_logout(uid)` is evaluated. utils.py defines no
`to_logout` on Packet (its constructors are to_login, from_client_login,
to_server, from_client_message, to_route, to_client, from_server_message,
to_str, from_str), so the attribute access raises AttributeError after the
session was removed, and `self.record` is never reached. -/
def Server.logout (s : ServerState) (uid : String) :
    ServerState × Except PyErr Unit :=
  if (s.client_dict.lookup uid).isNone then (s, .error .keyError)
  else
    let s1 := { s with client_dict := delKey s.client_dict uid }
    if (s1.conn_dict.lookup uid).isNone then (s1, .error .keyError)
    else
      let s2 := { s1 with conn_dict := delKey s1.conn_dict uid }
      (s2, .error (.attributeError
        "type object Packet has no attribute to_logout"))

/-- One complete hub connection whose client disconnects right after a
successful login: Server.handler lines 90-97 (authentication; on any
exception the handler returns with no record) followed by the loop of
lines 98-112 ending at once in ConnectionClosed, hence `logout` (line
112). -/
def Server.sessionLoginThenDisconnect (loads : List Char → Option JVal)
    (now : ℚ) (auth_func : Packet → Bool × String) (wsId : Nat)
    (s : ServerState) (message : List Char) :
    ServerState × Except PyErr Unit :=
  match Server.authenticate loads now s auth_func message with
  | .error _ => (s, .ok ())
  | .ok p =>
    let s1 := Server.acceptLogin s wsId p
    Server.logout s1 p.source

/-- FileRecorder.__init__ lines 31-36 (terminal/core/recorder.py), the
epoch_start computation. The argument `firstLine` is `none` when the active
file is absent (FileNotFoundError, caught) and `some m` when a first line
was read, with `m` its json.loads parse (`none` for malformed text). The
except clause catches FileNotFoundError and json.JSONDecodeError only;
`Packet.from_str` raises AssertionError for undecodable text (utils.py
lines 38-41 convert the json error), so that branch escapes. -/
def FileRecorder.initEpoch (now : ℚ) (firstLine : Option (Option JVal)) :
    Except PyErr ℚ :=
  match firstLine with
  | none => .ok now
  | some m =>
    match Packet.from_str now m with
    | .ok p => .ok (p.route_time / 1000)
    | .error e =>
      if e = .jsonDecodeError then .ok now else .error e

/-- Upstream request composed by the helper (binance_helper.py): method,
stream-name params and the millisecond id from get_request_id. -/
structure UpRequest where
  method : String
  params : List String
  id : Int
  deriving DecidableEq, Repr

/-- BinanceRawHelper state (binance_helper.py lines 16-23): the designated
init stream, the subscription index `stream_dict`, the messages accepted by
`websocket.send` so far (`sent`), the `message_buffer` of sends that hit a
closed connection, and whether the upstream websocket currently accepts
sends. Buffered messages are kept as their request values rather than their
json text. -/
structure BinanceState where
  init_stream : String
  stream_dict : List (String × List String)
  sent : List UpRequest
  message_buffer : List UpRequest
  wsOpen : Bool
  deriving DecidableEq, Repr

/-- BinanceRawHelper.send (binance_helper.py lines 29-34): a send on a
closed connection is caught and the message appended to the buffer. -/
def BinanceRawHelper.send (s : BinanceState) (m : UpRequest) : BinanceState :=
  if s.wsOpen then { s with sent := s.sent ++ [m] }
  else { s with message_buffer := s.message_buffer ++ [m] }

/-- Replaces the value stored under a present key, the effect of mutating
the list object a Python dict entry aliases. -/
def dictUpdate (d : List (String × List String)) (k : String)
    (v : List String) : List (String × List String) :=
  d.map fun kv => if kv.1 = k then (kv.1, v) else kv

/-- BinanceRawHelper.subscribe (binance_helper.py lines 87-98): a fresh
stream gets the singleton subscriber list and one SUBSCRIBE request through
`send`; then the uid is appended only when absent from the list. -/
def BinanceRawHelper.subscribe (now : Int) (uid stream : String)
    (s : BinanceState) : BinanceState :=
  let s1 :=
    if (s.stream_dict.lookup stream).isNone then
      BinanceRawHelper.send
        { s with stream_dict := s.stream_dict ++ [(stream, [uid])] }
        ⟨"SUBSCRIBE", [stream], now⟩
    else s
  match s1.stream_dict.lookup stream with
  | none => s1
  | some dest =>
    if uid ∈ dest then s1
    else { s1 with stream_dict := dictUpdate s1.stream_dict stream
                     (dest ++ [uid]) }

/-- BinanceRawHelper.unsubscribe (binance_helper.py lines 100-119): absent
stream returns; a present uid is removed (list.remove, first occurrence);
a nonempty remainder returns; otherwise one UNSUBSCRIBE request goes to
`websocket.send` directly (ConnectionClosed swallowed, nothing buffered)
and the finally block pops the key. -/
def BinanceRawHelper.unsubscribe (now : Int) (uid stream : String)
    (s : BinanceState) : BinanceState :=
  match s.stream_dict.lookup stream with
  | none => s
  | some dest =>
    let dest' := if uid ∈ dest then dest.erase uid else dest
    let s1 := if uid ∈ dest
      then { s with stream_dict := dictUpdate s.stream_dict stream dest' }
      else s
    if dest'.length ≠ 0 then s1
    else
      let s2 := if s1.wsOpen
        then { s1 with sent := s1.sent ++ [⟨"UNSUBSCRIBE", [stream], now⟩] }
        else s1
      { s2 with stream_dict := delKey s2.stream_dict stream }

/-- BinanceRawHelper.resubscribe (binance_helper.py lines 36-46):
`list(stream_dict.keys())` then `list.remove(init_stream)` - a ValueError
when init_stream is not indexed - then either nothing (no other stream) or
one SUBSCRIBE carrying every remaining stream with id the current
millisecond time. The request goes to `websocket.send` directly. -/
def BinanceRawHelper.resubscribe (now : Int) (s : BinanceState) :
    Except PyErr (Option UpRequest) :=
  let stream_list := s.stream_dict.map Prod.fst
  if s.init_stream ∈ stream_list then
    let remaining := stream_list.erase s.init_stream
    if remaining.length = 0 then .ok none
    else .ok (some ⟨"SUBSCRIBE", remaining, now⟩)
  else .error .valueError

/-- BinanceRawHelper.__call__ lines 69-70: ensure the init stream is
indexed (empty subscriber list) before the handler runs. -/
def BinanceRawHelper.ensureInitStream (s : BinanceState) : BinanceState :=
  if (s.stream_dict.lookup s.init_stream).isSome then s
  else { s with stream_dict := s.stream_dict ++ [(s.init_stream, [])] }

/-- The reconnect path of BinanceRawHelper.__call__ (lines 65-73) up to the
first statement of handler (line 54): index the init stream, then compose
the resubscribe request for the current index. -/
def BinanceRawHelper.onReconnect (now : Int) (s : BinanceState) :
    BinanceState × Except PyErr (Option UpRequest) :=
  let s1 := BinanceRawHelper.ensureInitStream s
  (s1, BinanceRawHelper.resubscribe now s1)

/-- Lifecycle flags of the upstream helper: the `is_initialized` attribute,
whether the resubscribe step and the buffer drain of the current connection
have completed, and whether the upstream websocket is open. -/
structure HelperFlags where
  inited : Bool
  resubscribed : Bool
  drained : Bool
  wsOpen : Bool
  deriving DecidableEq, Repr

/-- Observable steps of one BinanceRawHelper.__call__ connection iteration
(binance_helper.py lines 65-80). `disconnect` covers the read-loop
exception together with the finally block clearing `is_initialized`; no
suspension point separates them. -/
inductive HelperEvent where
  | ensureInitStream
  | setWebsocket
  | markInit
  | resubscribeStep
  | drainStep
  | disconnect
  deriving DecidableEq, Repr

/-- Effect of one lifecycle event on the helper flags. -/
def stepEvent (f : HelperFlags) : HelperEvent → HelperFlags
  | .ensureInitStream => f
  | .setWebsocket => { f with wsOpen := true }
  | .markInit => { f with inited := true }
  | .resubscribeStep => { f with resubscribed := true }
  | .drainStep => { f with drained := true }
  | .disconnect => { f with wsOpen := false, inited := false }

/-- The statement order of one connection iteration of
BinanceRawHelper.__call__ (lines 69-80): ensure the init stream, store the
websocket, set `is_initialized := True` (line 72), only then run the
resubscribe (line 54) and buffer drain (line 55) of handler, and clear the
flag when the connection ends. ExchangeRawHelper.set_up (exchange_helper.py
lines 105-111) orders its flag the same way: `is_initialized = True`
precedes the buffer drain loop. -/
def connectCycle : List HelperEvent :=
  [.ensureInitStream, .setWebsocket, .markInit, .resubscribeStep,
   .drainStep, .disconnect]

/-- Flags before any connection. -/
def flags0 : HelperFlags := ⟨false, false, false, false⟩

/-- Flags after running a list of lifecycle events. -/
def runEvents (es : List HelperEvent) : HelperFlags :=
  es.foldl stepEvent flags0

/-- RequestContent (trade_content.py lines 38-64): correlation id, method
name and raw params list. -/
structure RequestContent where
  request_id : Int
  method : String
  params : List JVal

/-- ResponseContent (trade_content.py lines 67-88): correlation id and raw
result value. -/
structure ResponseContent where
  request_id : Int
  result : JVal

/-- Decoded trade contents, the tagged sum named in section 9 of the spec. -/
inductive TradeContentVal where
  | request (rc : RequestContent)
  | response (rc : ResponseContent)
  | streamEvent (st : String) (dt : JVal)

/-- TradeClient.load_content (terminal/extensions/trade/trade_client.py
lines 17-26). Line 19 calls `TradeContent.check_content(content)`;
trade_content.py gives TradeContent only `from_content` and
`to_content_str`, so the attribute access raises AttributeError before any
byte of the content is examined. -/
def TradeClient.load_content (_content : String) :
    Except PyErr TradeContentVal :=
  .error (.attributeError
    "type object TradeContent has no attribute check_content")

/-- Hub-side effects ExchangeClient.react can perform: respond through the
hub, or call into the helper subscription index. -/
inductive AdapterAction where
  | sendResponse (dest : String) (request_id : Int) (rs : JVal)
  | helperSubscribe (uid : String) (stream : JVal)
  | helperUnsubscribe (uid : String) (stream : JVal)

/-- The request dispatch of ExchangeClient.react (trade_client.py lines
107-119), taken after a successful decode: check_alive and
check_initialized answer unconditionally (lines 109-112, the first with the
current timestamp, the second with the `is_initialized` value); when the
helper reports initialized, subscribe and unsubscribe read `params[0]`
(lines 115-119) - an IndexError on an empty params list, with no guard. -/
def ExchangeClient.dispatchRequest (now : ℚ) (inited : Bool)
    (source : String) (rc : RequestContent) :
    Except PyErr (List AdapterAction) :=
  let acts1 : List AdapterAction :=
    if rc.method == "check_alive" then
      [.sendResponse source rc.request_id (.num now)]
    else if rc.method == "check_initialized" then
      [.sendResponse source rc.request_id (.jbool inited)]
    else []
  if !inited then .ok acts1
  else if rc.method == "subscribe" then
    match rc.params with
    | [] => .error .indexError
    | p0 :: _ => .ok (acts1 ++ [.helperSubscribe source p0])
  else if rc.method == "unsubscribe" then
    match rc.params with
    | [] => .error .indexError
    | p0 :: _ => .ok (acts1 ++ [.helperUnsubscribe source p0])
  else .ok acts1

/-- ExchangeClient.react (trade_client.py lines 99-119): load_content
failures are caught and logged (lines 100-104, returning with no action),
non-request contents return (lines 105-106), requests go to the dispatch. -/
def ExchangeClient.react (now : ℚ) (inited : Bool) (p : Packet) :
    Except PyErr (List AdapterAction) :=
  match TradeClient.load_content p.content with
  | .error _ => .ok []
  | .ok tc =>
    match tc with
    | .request rc => ExchangeClient.dispatchRequest now inited p.source rc
    | _ => .ok []

/-- One iteration of Client.handler (terminal/core/client.py lines 60-68):
the try block covers only the receive and the server-message decode -
a failure there logs and continues - while `react` runs outside it, so
anything react raises propagates out of the handler. -/
def Client.handlerStep (loads : List Char → Option JVal) (now : ℚ)
    (react : Packet → Except PyErr Unit) (message : List Char) :
    Except PyErr Unit :=
  match Packet.from_server_message now (loads message) with
  | .error _ => .ok ()
  | .ok p => react p

/-- The strategy request registry: request id to future, a pending future
being `none` and a completed one `some` of its result. -/
abbrev RequestDict := List (Int × Option JVal)

/-- Completes the future stored under a request id, leaving the rest of the
registry unchanged. -/
def setResult (d : RequestDict) (k : Int) (v : JVal) : RequestDict :=
  d.map fun kv => if kv.1 = k then (kv.1, some v) else kv

/-- StrategyClient.on_response_content (trade_client.py lines 168-172): a
registered id has its future completed with the result; the entry is not
removed (the body contains no del or pop). An id whose future already
completed would make Future.set_result raise InvalidStateError; an
unregistered id does nothing. -/
def StrategyClient.on_response_content (d : RequestDict)
    (c : ResponseContent) : Except PyErr RequestDict :=
  match d.lookup c.request_id with
  | none => .ok d
  | some none => .ok (setResult d c.request_id c.result)
  | some (some _) => .error .invalidStateError

/-- Concrete wire text for one scenario: the single character `L` parses to
a valid three-field login object for uid `A` sent at time 0; every other
text is rejected by json.loads. -/
def loadsLoginA : List Char → Option JVal := fun t =>
  if t = ['L'] then
    some (.obj [("st", .num 0), ("sc", .str "A"), ("ct", .str "")])
  else none

/-- Concrete wire behaviour for the truncation scenario: exactly the texts
of length 1025 parse, to a valid login object; in particular every proper
slice of such a text - the 1024-character slice the server takes included -
is rejected by json.loads, as with a JSON document whose closing brace sits
in the final character. -/
def loadsLong : List Char → Option JVal := fun t =>
  if t.length == 1025 then
    some (.obj [("st", .num 0), ("sc", .str "A"), ("ct", .str "x")])
  else none

/-- A login frame of 1025 characters for the truncation scenario. -/
def longLogin : List Char := List.replicate 1025 'a'

/-- Concrete wire text for the handler scenario: the single character `M`
parses to a valid four-field server message. -/
def loadsServerMsg : List Char → Option JVal := fun t =>
  if t = ['M'] then some (.obj (serverFields 0 0 "A" "x")) else none

/-! Codec lemmas: how each field check behaves on a well-typed object. -/

theorem check_message_obj (l : List (String × JVal)) (n : Nat) (h : l.length = n) :
    Packet.check_message (some (JVal.obj l)) n = .ok l := by
  simp [Packet.check_message, h]

theorem check_sent_time_ok (now q : ℚ) (l : List (String × JVal))
    (h : l.lookup "st" = some (JVal.num q)) (hlt : q < now + 1) :
    Packet.check_sent_time now l = .ok () := by
  simp [Packet.check_sent_time, h, hlt]

theorem check_route_time_ok (now q : ℚ) (l : List (String × JVal))
    (h : l.lookup "st" = some (JVal.num q)) (hlt : q < now + 1) :
    Packet.check_route_time now l = .ok () := by
  simp [Packet.check_route_time, h, hlt]

theorem check_action_ok (l : List (String × JVal)) (a : String)
    (h : l.lookup "ac" = some (JVal.str a))
    (ha : a = "login" ∨ a = "message" ∨ a = "logout") :
    Packet.check_action l = .ok () := by
  rcases ha with h1 | h1 | h1 <;> subst h1 <;> simp [Packet.check_action, h]

theorem check_source_ok (l : List (String × JVal)) (s : String)
    (h : l.lookup "sc" = some (JVal.str s))
    (hs : (pyIsAlnum (stripUnderscore s) || stripUnderscore s == "#") = true) :
    Packet.check_source l = .ok () := by
  simp [Packet.check_source, h, hs]

theorem check_content_ok (l : List (String × JVal)) (c : String)
    (h : l.lookup "ct" = some (JVal.str c)) :
    Packet.check_content l = .ok () := by
  simp [Packet.check_content, h]

theorem asStringList_map (dl : List String) :
    JVal.asStringList (JVal.arr (dl.map JVal.str)) = some dl := by
  induction dl with
  | nil => rfl
  | cons s rest ih =>
    simp only [JVal.asStringList, List.map_cons, List.mapM_cons] at ih ⊢
    simp_all

theorem from_str_record (now st rt : ℚ) (ac sc : String) (dl : List String)
    (ct : String) (hst : st < now + 1)
    (hac : ac = "login" ∨ ac = "message" ∨ ac = "logout")
    (hsc : (pyIsAlnum (stripUnderscore sc) || stripUnderscore sc == "#") = true) :
    Packet.from_str now (some (JVal.obj (recordFields st rt ac sc dl ct)))
      = .ok ⟨st, rt, ac, sc, dl, ct⟩ := by
  have h1 := check_message_obj (recordFields st rt ac sc dl ct) 6 rfl
  have h2 := check_sent_time_ok now st (recordFields st rt ac sc dl ct) rfl hst
  have h3 := check_route_time_ok now st (recordFields st rt ac sc dl ct) rfl hst
  have h4 := check_action_ok (recordFields st rt ac sc dl ct) ac rfl hac
  have h5 := check_source_ok (recordFields st rt ac sc dl ct) sc rfl hsc
  have h6 := check_content_ok (recordFields st rt ac sc dl ct) ct rfl
  have e1 : (recordFields st rt ac sc dl ct).lookup "st" = some (JVal.num st) := rfl
  have e2 : (recordFields st rt ac sc dl ct).lookup "rt" = some (JVal.num rt) := rfl
  have e3 : (recordFields st rt ac sc dl ct).lookup "ac" = some (JVal.str ac) := rfl
  have e4 : (recordFields st rt ac sc dl ct).lookup "sc" = some (JVal.str sc) := rfl
  have e5 : (recordFields st rt ac sc dl ct).lookup "dt"
      = some (JVal.arr (dl.map JVal.str)) := rfl
  have e6 : (recordFields st rt ac sc dl ct).lookup "ct" = some (JVal.str ct) := rfl
  rw [Packet.from_str.eq_def]
  simp only [h1, h2, h3, h4, h5, h6, e1, e2, e3, e4, e5, e6, asStringList_map]

theorem from_server_message_record (now st rt : ℚ) (sc ct : String)
    (hst : st < now + 1)
    (hsc : (pyIsAlnum (stripUnderscore sc) || stripUnderscore sc == "#") = true) :
    Packet.from_server_message now (some (JVal.obj (serverFields st rt sc ct)))
      = .ok ⟨st, rt, "message", sc, [], ct⟩ := by
  have h1 := check_message_obj (serverFields st rt sc ct) 4 rfl
  have h2 := check_sent_time_ok now st (serverFields st rt sc ct) rfl hst
  have h3 := check_route_time_ok now st (serverFields st rt sc ct) rfl hst
  have h5 := check_source_ok (serverFields st rt sc ct) sc rfl hsc
  have h6 := check_content_ok (serverFields st rt sc ct) ct rfl
  have e1 : (serverFields st rt sc ct).lookup "st" = some (JVal.num st) := rfl
  have e2 : (serverFields st rt sc ct).lookup "rt" = some (JVal.num rt) := rfl
  have e4 : (serverFields st rt sc ct).lookup "sc" = some (JVal.str sc) := rfl
  have e6 : (serverFields st rt sc ct).lookup "ct" = some (JVal.str ct) := rfl
  rw [Packet.from_server_message.eq_def]
  simp only [h1, h2, h3, h5, h6, e1, e2, e4, e6]

/-- Claim C5, counterexample. The record packet with source `_` is
well-formed for the claim - six fields, action `message`, a source matching
the spec identifier grammar `[A-Za-z0-9_]+`, string content, string-list
destination, sent_time in the past - yet decoding its encoding does not
return the packet: check_source strips the underscores, the empty remainder
is neither alphanumeric nor `#`, and from_str raises the assertion
`source format error`. -/
theorem roundtrip_fails_on_underscore_source :
    specSourceGrammar "_" = true
    ∧ Packet.from_str 1000 (some (Packet.to_str ⟨0, 0, "message", "_", [], ""⟩))
        = .error (.assertionError "source format error") := by
  constructor
  · rfl
  · have h1 := check_message_obj (recordFields 0 0 "message" "_" [] "") 6 rfl
    have h2 := check_sent_time_ok 1000 0 (recordFields 0 0 "message" "_" [] "")
      rfl (by norm_num)
    have h3 := check_route_time_ok 1000 0 (recordFields 0 0 "message" "_" [] "")
      rfl (by norm_num)
    have h4 := check_action_ok (recordFields 0 0 "message" "_" [] "") "message"
      rfl (Or.inr (Or.inl rfl))
    have h5 : Packet.check_source (recordFields 0 0 "message" "_" [] "")
        = .error (.assertionError "source format error") := rfl
    rw [Packet.from_str.eq_def]
    simp only [Packet.to_str, h1, h2, h3, h4, h5]

/-- Claim C5, amended: the encoder-decoder round-trip
`Packet.from_str (Packet.to_str x) = x` holds for every record packet whose
action is one of login, message or logout, whose sent_time is below the
decode-time clock plus the 1 ms slack, and whose source - after stripping
underscores, which is what the code checks - is a nonempty alphanumeric
string or `#`; under the same source condition the server-message view also
round-trips, `from_server_message (to_route x)` returning the four view
fields with action `message` and empty destination. (The claim as frozen
asserted this for every source matching `[A-Za-z0-9_]+`; sources consisting
of underscores alone are rejected by the decoder, see the counterexample.) -/
theorem packet_roundtrip_record_and_server_views (now : ℚ) (p : Packet)
    (hst : p.sent_time < now + 1)
    (hac : p.action = "login" ∨ p.action = "message" ∨ p.action = "logout")
    (hsc : (pyIsAlnum (stripUnderscore p.source)
            || stripUnderscore p.source == "#") = true) :
    Packet.from_str now (some (Packet.to_str p)) = .ok p
    ∧ Packet.from_server_message now (some (Packet.to_route p))
        = .ok ⟨p.sent_time, p.route_time, "message", p.source, [], p.content⟩ :=
  ⟨from_str_record now p.sent_time p.route_time p.action p.source
      p.destination p.content hst hac hsc,
   from_server_message_record now p.sent_time p.route_time p.source
      p.content hst hsc⟩

/-- Witness for the C5 amended theorem at a concrete packet. -/
theorem packet_roundtrip_record_and_server_views_witness :
    Packet.from_str 50 (some (Packet.to_str ⟨1, 2, "message", "a_b", ["x"], "c"⟩))
      = .ok ⟨1, 2, "message", "a_b", ["x"], "c"⟩
    ∧ Packet.from_server_message 50
        (some (Packet.to_route ⟨1, 2, "message", "a_b", ["x"], "c"⟩))
      = .ok ⟨1, 2, "message", "a_b", [], "c"⟩ :=
  packet_roundtrip_record_and_server_views 50 ⟨1, 2, "message", "a_b", ["x"], "c"⟩
    (by norm_num) (Or.inr (Or.inl rfl)) rfl

theorem from_client_login_fields (loads : List Char → Option JVal)
    (now st : ℚ) (sc ct : String) (message : List Char)
    (hload : loads message
      = some (.obj [("st", .num st), ("sc", .str sc), ("ct", .str ct)]))
    (hst : st < now + 1)
    (hsc : (pyIsAlnum (stripUnderscore sc) || stripUnderscore sc == "#") = true) :
    Packet.from_client_login loads now message = .ok ⟨st, now, "login", sc, [], ct⟩ := by
  have h1 : Packet.check_message (loads message) 3
      = .ok [("st", JVal.num st), ("sc", JVal.str sc), ("ct", JVal.str ct)] := by
    rw [hload]; exact check_message_obj _ 3 rfl
  have h2 := check_sent_time_ok now st
    [("st", JVal.num st), ("sc", JVal.str sc), ("ct", JVal.str ct)] rfl hst
  have h5 := check_source_ok
    [("st", JVal.num st), ("sc", JVal.str sc), ("ct", JVal.str ct)] sc rfl hsc
  have h6 := check_content_ok
    [("st", JVal.num st), ("sc", JVal.str sc), ("ct", JVal.str ct)] ct rfl
  have e1 : List.lookup "st"
      [("st", JVal.num st), ("sc", JVal.str sc), ("ct", JVal.str ct)]
      = some (JVal.num st) := rfl
  have e2 : List.lookup "sc"
      [("st", JVal.num st), ("sc", JVal.str sc), ("ct", JVal.str ct)]
      = some (JVal.str sc) := rfl
  have e3 : List.lookup "ct"
      [("st", JVal.num st), ("sc", JVal.str sc), ("ct", JVal.str ct)]
      = some (JVal.str ct) := rfl
  rw [Packet.from_client_login.eq_def]
  simp only [h1, h2, h5, h6, e1, e2, e3]

/-- Claim C8 (code_bug evidence). A missing active file is caught and
`epoch_start` falls back to the current time, and a valid first record line
sets `epoch_start` to its stored route time over 1000; but a malformed (or
empty) first line makes `Packet.from_str` raise
`AssertionError("packet decode error")` - the constructor catch clause
names `json.JSONDecodeError`, which `from_str` converts and never raises -
so the error escapes `FileRecorder.__init__` instead of defaulting
`epoch_start` to now. -/
theorem recorder_init_error_escapes :
    FileRecorder.initEpoch 1000 none = .ok 1000
    ∧ FileRecorder.initEpoch 1000 (some none)
        = .error (.assertionError "packet decode error")
    ∧ FileRecorder.initEpoch 1000
        (some (some (Packet.to_str ⟨1, 500, "message", "A", [], "x"⟩)))
      = .ok (500 / 1000) := by
  refine ⟨rfl, rfl, ?_⟩
  have hfrom := from_str_record 1000 1 500 "message" "A" [] "x"
    (by norm_num) (Or.inr (Or.inl rfl)) rfl
  rw [FileRecorder.initEpoch.eq_def]
  simp only [Packet.to_str, hfrom]

/-- Claim C1 (code_bug evidence). With clients `A` (websocket 1) and `B`
(websocket 2) live, a packet from `A` whose destination list contains `A`
itself is routed to the set containing both websockets: line 69 of
server.py reads `client_dict[packet.source]` - the stored authentication
packet, never equal to any websocket - so the removal on lines 70-71 never
fires and websocket 1, belonging to the source, stays in the broadcast set. -/
theorem route_delivers_to_source_socket :
    Server.route
      ⟨[("A", .pkt ⟨0, 0, "login", "A", [], ""⟩),
        ("B", .pkt ⟨0, 0, "login", "B", [], ""⟩)],
       [("A", .ws 1), ("B", .ws 2)], []⟩
      ⟨5, 6, "message", "A", ["A", "B"], "hi"⟩
    = .ok [.ws 1, .ws 2]
    ∧ List.lookup "A" [("A", PyObj.ws 1), ("B", PyObj.ws 2)]
        = some (PyObj.ws 1) :=
  ⟨rfl, rfl⟩

/-- Claim C2 (code_bug evidence). A client logs in (one recorded packet
with action `login`) and then disconnects: `Server.logout` removes the
session from both live dictionaries, but the call `Packet.to_logout(uid)`
on server.py line 88 names an attribute utils.py never defines, so an
AttributeError is raised and no packet with action `logout` is ever
recorded. -/
theorem logout_attribute_error_drops_record :
    Server.sessionLoginThenDisconnect loadsLoginA 1000 (fun _ => (true, "")) 7
      ⟨[], [], []⟩ ['L']
    = (⟨[], [], [⟨0, 1000, "login", "A", [], ""⟩]⟩,
       .error (.attributeError "type object Packet has no attribute to_logout"))
    ∧ List.countP (fun q => q.action == "login")
        [(⟨0, 1000, "login", "A", [], ""⟩ : Packet)] = 1
    ∧ List.countP (fun q => q.action == "logout")
        [(⟨0, 1000, "login", "A", [], ""⟩ : Packet)] = 0 := by
  refine ⟨?_, rfl, rfl⟩
  have hload : loadsLoginA (['L'].take 1024)
      = some (.obj [("st", .num 0), ("sc", .str "A"), ("ct", .str "")]) := rfl
  have hlogin := from_client_login_fields loadsLoginA 1000 0 "A" ""
    (['L'].take 1024) hload (by norm_num) rfl
  have hauth : Server.authenticate loadsLoginA 1000 ⟨[], [], []⟩
      (fun _ => (true, "")) ['L'] = .ok ⟨0, 1000, "login", "A", [], ""⟩ := by
    rw [Server.authenticate.eq_def]
    simp only [hlogin]
    rfl
  rw [Server.sessionLoginThenDisconnect.eq_def]
  simp only [hauth]
  rfl

/-- Claim C3, counterexample. After the third step of the upstream
connection cycle of BinanceRawHelper.__call__ - init stream ensured,
websocket stored, `is_initialized = True` executed on line 72 - the flag is
already true while neither the resubscribe step nor the buffered-message
drain has run, contradicting the claim that the flag is true only once
both have completed. -/
theorem init_flag_true_while_resubscribe_pending :
    (runEvents (connectCycle.take 3)).inited = true
    ∧ (runEvents (connectCycle.take 3)).resubscribed = false
    ∧ (runEvents (connectCycle.take 3)).drained = false :=
  ⟨rfl, rfl, rfl⟩

/-- Claim C3, amended: across one upstream connection cycle,
`is_initialized` becomes true immediately after the websocket is stored -
before the resubscribe step and the buffered-message drain run - and it is
cleared when the connection ends; it is never true while the websocket is
closed. The flag profiles over the cycle states make the order explicit:
the flag rises at state 3 while the resubscribe flag rises only at state 4
and the drain flag at state 5, and the final state has the flag cleared. -/
theorem init_flag_set_at_connect_cleared_at_disconnect :
    (connectCycle.scanl stepEvent flags0).map (fun f => f.inited)
      = [false, false, false, true, true, true, false]
    ∧ (connectCycle.scanl stepEvent flags0).map (fun f => f.resubscribed)
      = [false, false, false, false, true, true, true]
    ∧ (connectCycle.scanl stepEvent flags0).map (fun f => f.drained)
      = [false, false, false, false, false, true, true]
    ∧ ((connectCycle.scanl stepEvent flags0).map
        (fun f => f.inited && !f.wsOpen)).all (fun b => !b) = true :=
  ⟨rfl, rfl, rfl, rfl⟩

theorem setResult_keeps_key (d : RequestDict) (k : Int) (v : JVal) :
    (d.lookup k).isSome = true →
    (setResult d k v).lookup k = some (some v) := by
  induction d with
  | nil => intro h; simp [List.lookup] at h
  | cons kv t ih =>
    intro h
    obtain ⟨a, b⟩ := kv
    by_cases hk : a = k
    · subst hk
      simp only [setResult, List.map_cons]
      simp [List.lookup]
    · have hka : (k == a) = false := by
        simp only [beq_eq_false_iff_ne, ne_eq]
        exact fun hh => hk hh.symm
      simp only [setResult, List.map_cons]
      simp only [if_neg hk]
      simp only [List.lookup, hka]
      simp only [List.lookup, hka] at h
      exact ih h

/-- Claim C4, counterexample. With the registry holding the pending entry
for id 5, a ResponseContent with id 5 completes the future - and the entry
is still present afterwards: on_response_content contains no del or pop, so
the registry does not shrink and an entry can exist although no response is
awaited any more. -/
theorem response_entry_not_removed :
    StrategyClient.on_response_content [(5, none)] ⟨5, .jbool true⟩
      = .ok [(5, some (.jbool true))]
    ∧ (List.lookup 5 [((5 : Int), some (JVal.jbool true))]).isSome = true :=
  ⟨rfl, rfl⟩

/-- Claim C4, amended: when a ResponseContent arrives whose id is a key of
the registry with a still-pending future, the future is completed with the
rs value of the response while the entry remains in the registry (never
removed); responses with unregistered ids change nothing. -/
theorem response_completes_future_entry_stays (d : RequestDict)
    (c : ResponseContent) (hp : d.lookup c.request_id = some none) :
    StrategyClient.on_response_content d c
      = .ok (setResult d c.request_id c.result)
    ∧ (setResult d c.request_id c.result).lookup c.request_id
        = some (some c.result)
    ∧ (∀ d2 : RequestDict, ∀ c2 : ResponseContent,
        d2.lookup c2.request_id = none →
        StrategyClient.on_response_content d2 c2 = .ok d2) := by
  refine ⟨?_, ?_, ?_⟩
  · simp [StrategyClient.on_response_content, hp]
  · exact setResult_keeps_key d c.request_id c.result (by simp [hp])
  · intro d2 c2 h2
    simp [StrategyClient.on_response_content, h2]

/-- Witness for the C4 amended theorem at the concrete registry. -/
theorem response_completes_future_entry_stays_witness :
    List.lookup (5 : Int) [((5 : Int), (none : Option JVal))] = some none
    ∧ (StrategyClient.on_response_content [(5, none)] ⟨5, .jbool true⟩
        = .ok (setResult [(5, none)] 5 (.jbool true))
      ∧ (setResult [(5, none)] 5 (.jbool true)).lookup 5
          = some (some (JVal.jbool true))
      ∧ (∀ d2 : RequestDict, ∀ c2 : ResponseContent,
          d2.lookup c2.request_id = none →
          StrategyClient.on_response_content d2 c2 = .ok d2)) :=
  ⟨rfl, response_completes_future_entry_stays [(5, none)] ⟨5, .jbool true⟩ rfl⟩

/-- Claim C10 (code_bug evidence). A request packet carrying
`{kl: request, id: 1, mt: subscribe, pr: []}` while the helper reports
initialized never reaches the unguarded `params[0]`: load_content calls
`TradeContent.check_content`, an attribute trade_content.py never defines,
so react catches the AttributeError and returns with no action (first
conjunct). The dispatch code of lines 107-119 itself would raise IndexError
on the empty params list (second conjunct), and an exception raised by
react propagates out of the client handler loop, whose try block covers
only the receive and decode (third conjunct). -/
theorem react_never_reaches_params_index :
    ExchangeClient.react 5 true ⟨0, 0, "message", "S", [], "req"⟩ = .ok []
    ∧ ExchangeClient.dispatchRequest 5 true "S" ⟨1, "subscribe", []⟩
        = .error .indexError
    ∧ Client.handlerStep loadsServerMsg 5 (fun _ => .error .indexError) ['M']
        = .error .indexError := by
  refine ⟨rfl, rfl, ?_⟩
  have hl : loadsServerMsg ['M'] = some (.obj (serverFields 0 0 "A" "x")) := rfl
  have hdec := from_server_message_record 5 0 0 "A" "x" (by norm_num) rfl
  rw [Client.handlerStep.eq_def]
  rw [hl, hdec]

/-- Claim C9: Server.authenticate hands only the first 1024 characters of
the first frame to the login decoder, so a login frame longer than 1024
whose 1024-character slice does not decode as a complete valid client-login
object is rejected (the connection is then closed by the handler), even
when the frame as a whole is a valid login. -/
theorem authenticate_truncates_long_login (loads : List Char → Option JVal)
    (now : ℚ) (s : ServerState) (auth_func : Packet → Bool × String)
    (message : List Char)
    (_hlong : 1024 < message.length)
    (_hfull : exceptOk (Packet.from_client_login loads now message) = true)
    (hpre : exceptOk (Packet.from_client_login loads now (message.take 1024))
        = false) :
    exceptOk (Server.authenticate loads now s auth_func message) = false := by
  rw [Server.authenticate.eq_def]
  cases h : Packet.from_client_login loads now (message.take 1024) with
  | error e => simp [exceptOk]
  | ok p => rw [h] at hpre; simp [exceptOk] at hpre

set_option maxRecDepth 10000 in
/-- Witness for C9 at a concrete 1025-character frame whose full text
decodes but whose 1024-character slice does not. -/
theorem authenticate_truncates_long_login_witness :
    1024 < longLogin.length
    ∧ exceptOk (Packet.from_client_login loadsLong 10 longLogin) = true
    ∧ exceptOk (Server.authenticate loadsLong 10 ⟨[], [], []⟩
        (fun _ => (true, "")) longLogin) = false := by
  have hlong : 1024 < longLogin.length := by
    simp [longLogin]
  have hload : loadsLong longLogin
      = some (.obj [("st", .num 0), ("sc", .str "A"), ("ct", .str "x")]) := by
    rfl
  have hfull : exceptOk (Packet.from_client_login loadsLong 10 longLogin)
      = true := by
    rw [from_client_login_fields loadsLong 10 0 "A" "x" longLogin hload
      (by norm_num) rfl]
    rfl
  have hnone : loadsLong (longLogin.take 1024) = none := by rfl
  have hpre : exceptOk (Packet.from_client_login loadsLong 10
      (longLogin.take 1024)) = false := by
    rw [Packet.from_client_login.eq_def, hnone]
    rfl
  exact ⟨hlong, hfull,
    authenticate_truncates_long_login loadsLong 10 ⟨[], [], []⟩
      (fun _ => (true, "")) longLogin hlong hfull hpre⟩

/-! Association-list lemmas for the subscription index. -/

theorem mem_keys_of_lookup {α : Type} (d : List (String × α)) (k : String)
    (v : α) (h : d.lookup k = some v) : k ∈ d.map Prod.fst := by
  induction d with
  | nil => simp [List.lookup] at h
  | cons kv t ih =>
    obtain ⟨a, b⟩ := kv
    by_cases hk : k = a
    · subst hk; simp
    · have hka : (k == a) = false := by simp [hk]
      simp only [List.lookup, hka] at h
      simpa using Or.inr (ih h)

theorem lookup_append_fresh {α : Type} (d : List (String × α)) (k : String)
    (v : α) (h : d.lookup k = none) : (d ++ [(k, v)]).lookup k = some v := by
  induction d with
  | nil => simp [List.lookup]
  | cons kv t ih =>
    obtain ⟨a, b⟩ := kv
    by_cases hk : k = a
    · subst hk; simp [List.lookup] at h
    · have hka : (k == a) = false := by simp [hk]
      simp only [List.lookup, hka] at h
      simp only [List.cons_append, List.lookup, hka]
      exact ih h

theorem dictUpdate_fresh (d : List (String × List String)) (k : String)
    (v : List String) (h : d.lookup k = none) : dictUpdate d k v = d := by
  induction d with
  | nil => rfl
  | cons kv t ih =>
    obtain ⟨a, b⟩ := kv
    by_cases hk : k = a
    · subst hk; simp [List.lookup] at h
    · have hka : (k == a) = false := by simp [hk]
      have hak : ¬a = k := fun hh => hk hh.symm
      simp only [List.lookup, hka] at h
      simp only [dictUpdate, List.map_cons, if_neg hak]
      simp only [dictUpdate] at ih
      rw [ih h]

theorem delKey_append_fresh {α : Type} (d : List (String × α)) (k : String)
    (v : α) (h : d.lookup k = none) : delKey (d ++ [(k, v)]) k = d := by
  induction d with
  | nil => simp [delKey]
  | cons kv t ih =>
    obtain ⟨a, b⟩ := kv
    by_cases hk : k = a
    · subst hk; simp [List.lookup] at h
    · have hka : (k == a) = false := by simp [hk]
      have hak : (a == k) = false := by
        simp only [beq_eq_false_iff_ne, ne_eq]
        exact fun hh => hk hh.symm
      simp only [List.lookup, hka] at h
      simp only [delKey, List.cons_append, List.eraseP_cons, hak] at ih ⊢
      simp [ih h]

theorem dictUpdate_fresh_append (d : List (String × List String)) (k : String)
    (x v : List String) (h : d.lookup k = none) :
    dictUpdate (d ++ [(k, x)]) k v = d ++ [(k, v)] := by
  have hd := dictUpdate_fresh d k v h
  simp only [dictUpdate, List.map_append] at hd ⊢
  rw [hd]
  simp

/-! Case behaviour of the helper subscription operations. -/

theorem subscribe_fresh (s : BinanceState) (u stream : String) (n1 : Int)
    (hfresh : s.stream_dict.lookup stream = none)
    (hws : s.wsOpen = true) :
    BinanceRawHelper.subscribe n1 u stream s
      = ⟨s.init_stream, s.stream_dict ++ [(stream, [u])],
         s.sent ++ [⟨"SUBSCRIBE", [stream], n1⟩], s.message_buffer, s.wsOpen⟩ := by
  have hlk := lookup_append_fresh s.stream_dict stream [u] hfresh
  simp only [BinanceRawHelper.subscribe, BinanceRawHelper.send, hfresh,
    Option.isNone_none, if_true, ite_true, hws, hlk]
  simp [hws]

theorem subscribe_present (s : BinanceState) (u stream : String) (n2 : Int)
    (dest : List String)
    (hlk : s.stream_dict.lookup stream = some dest)
    (hmem : u ∈ dest) :
    BinanceRawHelper.subscribe n2 u stream s = s := by
  simp only [BinanceRawHelper.subscribe, hlk, Option.isNone_some, Bool.false_eq_true,
    if_false, ite_false, hmem, if_true, ite_true]

theorem subscribe_present_new_uid (s : BinanceState) (v stream : String)
    (n2 : Int) (dest : List String)
    (hlk : s.stream_dict.lookup stream = some dest)
    (hmem : v ∉ dest) :
    BinanceRawHelper.subscribe n2 v stream s
      = { s with stream_dict := dictUpdate s.stream_dict stream (dest ++ [v]) } := by
  simp only [BinanceRawHelper.subscribe, hlk, Option.isNone_some, Bool.false_eq_true,
    if_false, ite_false]
  simp [hmem]

theorem unsubscribe_empties (s : BinanceState) (u stream : String) (n3 : Int)
    (hlk : s.stream_dict.lookup stream = some [u])
    (hws : s.wsOpen = true) :
    BinanceRawHelper.unsubscribe n3 u stream s
      = { s with stream_dict := delKey (dictUpdate s.stream_dict stream []) stream,
                 sent := s.sent ++ [⟨"UNSUBSCRIBE", [stream], n3⟩] } := by
  simp only [BinanceRawHelper.unsubscribe, hlk]
  simp [List.erase_cons_head, hws]

theorem unsubscribe_keeps (s : BinanceState) (u v stream : String) (n3 : Int)
    (hlk : s.stream_dict.lookup stream = some [u, v]) :
    BinanceRawHelper.unsubscribe n3 u stream s
      = { s with stream_dict := dictUpdate s.stream_dict stream [v] } := by
  simp only [BinanceRawHelper.unsubscribe, hlk]
  simp [List.erase_cons_head]

theorem unsubscribe_absent (s : BinanceState) (u stream : String) (n4 : Int)
    (hlk : s.stream_dict.lookup stream = none) :
    BinanceRawHelper.unsubscribe n4 u stream s = s := by
  simp only [BinanceRawHelper.unsubscribe, hlk]

/-- Claim C6: starting from a state where the stream is not yet indexed
(and the upstream websocket accepts sends), subscribing `u` twice emits
exactly one SUBSCRIBE request for the stream - the first call appends it
and the second call changes nothing at all - and leaves `u` exactly once in
the subscriber list; unsubscribe is idempotent (its result absorbs a repeat
call), and it emits an UNSUBSCRIBE and deletes the key exactly when the
subscriber set becomes empty: with `u` the only subscriber the key is gone
and one UNSUBSCRIBE went upstream, while with a second subscriber `v` still
present the key survives with `[v]` and no UNSUBSCRIBE is sent. -/
theorem subscribe_idempotent_unsubscribe_deletes_iff_empty
    (s : BinanceState) (u v stream : String) (n1 n2 n3 n4 : Int)
    (hfresh : s.stream_dict.lookup stream = none)
    (hws : s.wsOpen = true)
    (hne : v ≠ u) :
    BinanceRawHelper.subscribe n1 u stream s
      = ⟨s.init_stream, s.stream_dict ++ [(stream, [u])],
         s.sent ++ [⟨"SUBSCRIBE", [stream], n1⟩], s.message_buffer, s.wsOpen⟩
    ∧ BinanceRawHelper.subscribe n2 u stream (BinanceRawHelper.subscribe n1 u stream s)
        = BinanceRawHelper.subscribe n1 u stream s
    ∧ (BinanceRawHelper.subscribe n1 u stream s).stream_dict.lookup stream = some [u]
    ∧ BinanceRawHelper.unsubscribe n3 u stream (BinanceRawHelper.subscribe n1 u stream s)
        = ⟨s.init_stream, s.stream_dict,
           s.sent ++ [⟨"SUBSCRIBE", [stream], n1⟩, ⟨"UNSUBSCRIBE", [stream], n3⟩],
           s.message_buffer, s.wsOpen⟩
    ∧ BinanceRawHelper.unsubscribe n4 u stream
        (BinanceRawHelper.unsubscribe n3 u stream (BinanceRawHelper.subscribe n1 u stream s))
        = BinanceRawHelper.unsubscribe n3 u stream (BinanceRawHelper.subscribe n1 u stream s)
    ∧ (BinanceRawHelper.subscribe n2 v stream
        (BinanceRawHelper.subscribe n1 u stream s)).stream_dict.lookup stream = some [u, v]
    ∧ BinanceRawHelper.unsubscribe n3 u stream
        (BinanceRawHelper.subscribe n2 v stream (BinanceRawHelper.subscribe n1 u stream s))
        = ⟨s.init_stream, s.stream_dict ++ [(stream, [v])],
           s.sent ++ [⟨"SUBSCRIBE", [stream], n1⟩], s.message_buffer, s.wsOpen⟩ := by
  have h1 := subscribe_fresh s u stream n1 hfresh hws
  have hlk1 : (BinanceRawHelper.subscribe n1 u stream s).stream_dict.lookup stream
      = some [u] := by
    rw [h1]
    exact lookup_append_fresh s.stream_dict stream [u] hfresh
  have h2 := subscribe_present (BinanceRawHelper.subscribe n1 u stream s)
    u stream n2 [u] hlk1 (by simp)
  have hU := unsubscribe_empties (BinanceRawHelper.subscribe n1 u stream s)
    u stream n3 hlk1 (by rw [h1]; exact hws)
  have hUdict : delKey (dictUpdate
      (BinanceRawHelper.subscribe n1 u stream s).stream_dict stream []) stream
      = s.stream_dict := by
    rw [h1]
    rw [dictUpdate_fresh_append s.stream_dict stream [u] [] hfresh]
    exact delKey_append_fresh s.stream_dict stream [] hfresh
  have hUfull : BinanceRawHelper.unsubscribe n3 u stream
      (BinanceRawHelper.subscribe n1 u stream s)
      = ⟨s.init_stream, s.stream_dict,
         s.sent ++ [⟨"SUBSCRIBE", [stream], n1⟩, ⟨"UNSUBSCRIBE", [stream], n3⟩],
         s.message_buffer, s.wsOpen⟩ := by
    rw [hU, hUdict]
    rw [h1]
    simp
  have hI : BinanceRawHelper.unsubscribe n4 u stream
      (BinanceRawHelper.unsubscribe n3 u stream (BinanceRawHelper.subscribe n1 u stream s))
      = BinanceRawHelper.unsubscribe n3 u stream
          (BinanceRawHelper.subscribe n1 u stream s) := by
    rw [hUfull]
    exact unsubscribe_absent _ u stream n4 hfresh
  have hS2 : BinanceRawHelper.subscribe n2 v stream
      (BinanceRawHelper.subscribe n1 u stream s)
      = ⟨s.init_stream, s.stream_dict ++ [(stream, [u, v])],
         s.sent ++ [⟨"SUBSCRIBE", [stream], n1⟩], s.message_buffer, s.wsOpen⟩ := by
    rw [subscribe_present_new_uid (BinanceRawHelper.subscribe n1 u stream s)
      v stream n2 [u] hlk1 (by simp [hne])]
    rw [h1]
    simp only []
    rw [dictUpdate_fresh_append s.stream_dict stream [u] ([u] ++ [v]) hfresh]
    simp
  have hlk2 : (BinanceRawHelper.subscribe n2 v stream
      (BinanceRawHelper.subscribe n1 u stream s)).stream_dict.lookup stream
      = some [u, v] := by
    rw [hS2]
    exact lookup_append_fresh s.stream_dict stream [u, v] hfresh
  have hU2 : BinanceRawHelper.unsubscribe n3 u stream
      (BinanceRawHelper.subscribe n2 v stream (BinanceRawHelper.subscribe n1 u stream s))
      = ⟨s.init_stream, s.stream_dict ++ [(stream, [v])],
         s.sent ++ [⟨"SUBSCRIBE", [stream], n1⟩], s.message_buffer, s.wsOpen⟩ := by
    rw [unsubscribe_keeps _ u v stream n3 hlk2]
    rw [hS2]
    simp only []
    rw [dictUpdate_fresh_append s.stream_dict stream [u, v] [v] hfresh]
  exact ⟨h1, h2, hlk1, hUfull, hI, hlk2, hU2⟩

/-- Witness for C6 at a concrete fresh helper state with subscribers `u1`
and `u2` on stream `x@y`. -/
theorem subscribe_idempotent_unsubscribe_deletes_iff_empty_witness :
    BinanceRawHelper.subscribe 1 "u1" "x@y" ⟨"init", [], [], [], true⟩
      = ⟨"init", [("x@y", ["u1"])], [⟨"SUBSCRIBE", ["x@y"], 1⟩], [], true⟩
    ∧ BinanceRawHelper.subscribe 2 "u1" "x@y"
        (BinanceRawHelper.subscribe 1 "u1" "x@y" ⟨"init", [], [], [], true⟩)
        = BinanceRawHelper.subscribe 1 "u1" "x@y" ⟨"init", [], [], [], true⟩
    ∧ (BinanceRawHelper.subscribe 1 "u1" "x@y"
        ⟨"init", [], [], [], true⟩).stream_dict.lookup "x@y" = some ["u1"]
    ∧ BinanceRawHelper.unsubscribe 3 "u1" "x@y"
        (BinanceRawHelper.subscribe 1 "u1" "x@y" ⟨"init", [], [], [], true⟩)
        = ⟨"init", [], [⟨"SUBSCRIBE", ["x@y"], 1⟩, ⟨"UNSUBSCRIBE", ["x@y"], 3⟩],
           [], true⟩
    ∧ BinanceRawHelper.unsubscribe 4 "u1" "x@y"
        (BinanceRawHelper.unsubscribe 3 "u1" "x@y"
          (BinanceRawHelper.subscribe 1 "u1" "x@y" ⟨"init", [], [], [], true⟩))
        = BinanceRawHelper.unsubscribe 3 "u1" "x@y"
            (BinanceRawHelper.subscribe 1 "u1" "x@y" ⟨"init", [], [], [], true⟩)
    ∧ (BinanceRawHelper.subscribe 2 "u2" "x@y"
        (BinanceRawHelper.subscribe 1 "u1" "x@y"
          ⟨"init", [], [], [], true⟩)).stream_dict.lookup "x@y" = some ["u1", "u2"]
    ∧ BinanceRawHelper.unsubscribe 3 "u1" "x@y"
        (BinanceRawHelper.subscribe 2 "u2" "x@y"
          (BinanceRawHelper.subscribe 1 "u1" "x@y" ⟨"init", [], [], [], true⟩))
        = ⟨"init", [("x@y", ["u2"])], [⟨"SUBSCRIBE", ["x@y"], 1⟩], [], true⟩ :=
  subscribe_idempotent_unsubscribe_deletes_iff_empty
    ⟨"init", [], [], [], true⟩ "u1" "u2" "x@y" 1 2 3 4 rfl rfl (by decide)

/-- Claim C7: on each upstream reconnect - after the init stream is ensured
in the index - the helper composes at most one request, namely none when no
stream other than the init stream is indexed, and otherwise exactly one
SUBSCRIBE whose params are the currently-indexed stream names with the init
stream removed and whose id is the current millisecond time; in particular
the ValueError branch of list.remove is unreachable on this path. -/
theorem resubscribe_emits_current_index_batch (now : Int) (s : BinanceState) :
    (BinanceRawHelper.onReconnect now s).2
      = .ok (if (((BinanceRawHelper.ensureInitStream s).stream_dict.map Prod.fst).erase
                  s.init_stream).length = 0
             then none
             else some ⟨"SUBSCRIBE",
               ((BinanceRawHelper.ensureInitStream s).stream_dict.map Prod.fst).erase
                 s.init_stream, now⟩) := by
  have hmem : s.init_stream
      ∈ (BinanceRawHelper.ensureInitStream s).stream_dict.map Prod.fst := by
    unfold BinanceRawHelper.ensureInitStream
    by_cases h : (s.stream_dict.lookup s.init_stream).isSome
    · rw [if_pos h]
      obtain ⟨w, hw⟩ := Option.isSome_iff_exists.mp h
      exact mem_keys_of_lookup s.stream_dict s.init_stream w hw
    · rw [if_neg h]
      simp
  have hinit : (BinanceRawHelper.ensureInitStream s).init_stream = s.init_stream := by
    unfold BinanceRawHelper.ensureInitStream
    split <;> rfl
  simp only [BinanceRawHelper.onReconnect, BinanceRawHelper.resubscribe, hinit]
  rw [if_pos hmem]
  split <;> rfl

end Terminal
